import Mathlib

/-
Verification development for the tg-bot-news-parser content-curation pipeline.

This file gives a shallow embedding of the scoring-and-deduplication core:
the novelty scorer of `services/embedder.py`, the final aggregation of
`services/finisher.py`, the staged filters of `msg_processing/msg_handle.py`
and `services/analyzer.py`, the retrying gateway of
`msg_processing/deepseek_service.py`, and the commentary chain of
`services/commentator.py`.

Python floats are modelled as exact rationals (`ℚ`) where the code only
performs field operations, and as real numbers (`ℝ`) where square roots
occur (vector norms and similarity metrics).  Calls to external services
(the DeepSeek HTTP API, the sentence-transformer encoder, `ast.literal_eval`)
are modelled as explicit function parameters, so every theorem quantifies
over all possible behaviours of the external collaborator.
-/

namespace Py

/-- Text form of Python `round(x, 1)`: round to one decimal digit using
round-half-to-even (banker's rounding), as CPython's `round` does on the
idealised exact value. -/
def round1 (x : ℚ) : ℚ :=
  let y := x * 10
  let n : ℤ := ⌊y⌋
  let r : ℤ :=
    if y - n < 1/2 then n
    else if y - n > 1/2 then n + 1
    else if n % 2 = 0 then n else n + 1
  (r : ℚ) / 10

/-- Python `str.lower()` restricted to the alphabets this repository uses:
ASCII `A`–`Z` and Cyrillic `А`–`Я` (U+0410–U+042F) map down by the usual
offset, `Ё` (U+0401) maps to `ё` (U+0451); every other character is kept. -/
def charLower (c : Char) : Char :=
  if 'A' ≤ c ∧ c ≤ 'Z' then Char.ofNat (c.toNat + 32)
  else if c.toNat ≥ 0x410 ∧ c.toNat ≤ 0x42F then Char.ofNat (c.toNat + 0x20)
  else if c.toNat = 0x401 then Char.ofNat 0x451
  else c

/-- Python `str.lower()` on a whole string (see `Py.charLower`). -/
def lower (s : String) : String :=
  String.mk (s.toList.map charLower)

/-- Python `str.strip()` on the character list of a string: drop leading
and trailing whitespace. -/
def strip (l : List Char) : List Char :=
  ((l.dropWhile Char.isWhitespace).reverse.dropWhile Char.isWhitespace).reverse

/-- Python `str.strip()` returning a string. -/
def stripStr (s : String) : String :=
  String.mk (strip s.toList)

/-- Python `str.startswith(c)` for a single-character needle. -/
def startsWithChar (l : List Char) (c : Char) : Bool :=
  match l with
  | [] => false
  | x :: _ => x = c

/-- Python `str.endswith(c)` for a single-character needle. -/
def endsWithChar (l : List Char) (c : Char) : Bool :=
  startsWithChar l.reverse c

/-- Python `str.split(sep)` for a single-character separator: splits on
every occurrence, keeping empty pieces (`",".split(",") = ["", ""]`). -/
def split (sep : Char) : List Char → List (List Char)
  | [] => [[]]
  | c :: t =>
    match split sep t with
    | [] => [[c]]
    | h :: r => if c = sep then [] :: h :: r else (c :: h) :: r

/-- Value of a run of decimal digit characters. -/
def digitsVal (ds : List Char) : ℕ :=
  ds.foldl (fun n c => 10 * n + (c.toNat - '0'.toNat)) 0

/-- Exponent suffix of a Python float literal: either nothing, or
`e`/`E` followed by an optional sign and at least one digit.  Returns
`Option.none` when the suffix is malformed (Python `float()` raises). -/
def parseExp : List Char → Option ℤ
  | [] => some 0
  | c :: t =>
    if c = 'e' ∨ c = 'E' then
      let (sgn, t1) : ℤ × List Char :=
        match t with
        | '+' :: u => (1, u)
        | '-' :: u => (-1, u)
        | u => (1, u)
      let ds := t1.takeWhile Char.isDigit
      let rest := t1.dropWhile Char.isDigit
      if ds.isEmpty ∨ ¬ rest.isEmpty then none
      else some (sgn * (digitsVal ds : ℤ))
    else none

/-- Python `float(s)` on decimal literals: optional sign, digits with an
optional decimal point, optional exponent; surrounding whitespace is
stripped.  Returns `Option.none` when `float()` would raise `ValueError`.
(The special literals `inf`/`nan` and digit-group underscores are outside
the fragment this repository ever round-trips through `str` and are not
modelled.) -/
def float? (s : String) : Option ℚ :=
  let cs := strip s.toList
  let (sgn, cs1) : ℚ × List Char :=
    match cs with
    | '+' :: t => (1, t)
    | '-' :: t => (-1, t)
    | t => (1, t)
  let intDigits := cs1.takeWhile Char.isDigit
  let rest1 := cs1.dropWhile Char.isDigit
  match rest1 with
  | '.' :: t =>
    let fracDigits := t.takeWhile Char.isDigit
    let rest2 := t.dropWhile Char.isDigit
    if intDigits.isEmpty ∧ fracDigits.isEmpty then none
    else
      match parseExp rest2 with
      | some e =>
        some (sgn * ((digitsVal intDigits : ℚ) +
          (digitsVal fracDigits : ℚ) / 10 ^ fracDigits.length) * (10 : ℚ) ^ e)
      | none => none
  | _ =>
    if intDigits.isEmpty then none
    else
      match parseExp rest1 with
      | some e => some (sgn * (digitsVal intDigits : ℚ) * (10 : ℚ) ^ e)
      | none => none

end Py

namespace Finisher

/-- Translation of `MessageFinisher._calculate_penalty` (finisher.py:175-186):
flat `-0.5` below `coincide_24hr = 0.5`, linear between `0.5` and `0.8`,
and the constant cap `2.0` from `0.8` on. -/
def calculate_penalty (coincide_24hr : ℚ) : ℚ :=
  if coincide_24hr < 1/2 then -(1/2)
  else if coincide_24hr < 4/5 then
    -(1/2) + ((2 - (-(1/2))) / (4/5 - 1/2)) * (coincide_24hr - 1/2)
  else 2

/-- Translation of `MessageFinisher._calculate_bonus` (finisher.py:188-197):
zero below `myth = 5`, linear with slope `(2-0)/(10-5)` from `5` on. -/
def calculate_bonus (myth : ℚ) : ℚ :=
  if myth < 5 then 0
  else 0 + ((2 - 0) / (10 - 5)) * (myth - 5)

/-- Row of `telegram_posts_top` as seen by `_process_top_posts`
(finisher.py:346-441).  Score columns are nullable. -/
structure TopPost where
  id : ℕ
  essence : Option ℚ
  coincide_24hr : Option ℚ
  myth_score : Option ℚ
  analyzed : Bool
  myth : Bool
  finished : Bool
  final : Bool
  final_score : Option ℚ

/-- Per-row body of `_process_top_posts` (finisher.py:372-441).  The flag
`exc` says whether the row raised inside the `try` block; the `except`
branch (finisher.py:434-441) still sets `finished = TRUE`.  On the normal
path, nullable scores are coalesced with `or 0.0`, `final_score` is the
rounded `essence - penalty + bonus`, and `final` compares it with the
configured threshold `ADJ_THRESHOLD` (kept as the parameter `th`; the
constant lives in `prompts.py`, outside this repository snapshot). -/
def top_row_step (th : ℚ) (exc : Bool) (p : TopPost) : TopPost :=
  if exc then { p with finished := true }
  else
    let essence := p.essence.getD 0
    let coincide := p.coincide_24hr.getD 0
    let myth := p.myth_score.getD 0
    let fs := Py.round1 (essence - calculate_penalty coincide + calculate_bonus myth)
    { p with final_score := some fs, final := decide (fs ≥ th), finished := true }

/-- Row of `telegram_posts_top_top` as seen by `_process_top_top_posts`
(finisher.py:225-302) and by the commentator. -/
structure TopTopPost where
  id : ℕ
  text_content : String
  news_final_score : Option ℚ
  comment_score_1 : Option ℚ
  comment_score_2 : Option ℚ
  comment_score_3 : Option ℚ
  author_best : Option String
  comment_best : Option String
  comment_score_best : Option ℚ
  total_score : Option ℚ
  analyzed : Bool
  finished : Bool

/-- Per-row body of `_process_top_top_posts` (finisher.py:252-299).
`total_score = round(comment_score_best * 0.7 + news_final_score * 0.3, 1)`;
if either score column is NULL the multiplication raises `TypeError` and the
`except` branch (finisher.py:298-299) only logs — it does **not** set
`finished`, so the row is returned unchanged. -/
def top_top_row_step (p : TopTopPost) : TopTopPost :=
  match p.comment_score_best, p.news_final_score with
  | some c, some n =>
    { p with total_score := some (Py.round1 (c * (7/10) + n * (3/10))),
             finished := true }
  | _, _ => p

end Finisher

namespace Embedder

/-- Translation of `Config.EMBEDDING_DIMENSION` (embedder.py:32). -/
def EMBEDDING_DIMENSION : ℕ := 768

/-- Translation of `Config.SIMILARITY_METRIC` (embedder.py:28). -/
def SIMILARITY_METRIC : String := "combined"

/-- Value handed to `_parse_embedding_string` (embedder.py:246-322): the
Python argument can be `None`, an actual list (each element modelled by its
`float(x)` conversion result, `Option.none` when the conversion raises), a
string from the database, or a value of any other type. -/
inductive PyVal where
  | none
  | list (xs : List (Option ℚ))
  | str (s : String)
  | other

/-- Result of `ast.literal_eval` on the non-bracket string branch
(embedder.py:305-315): a Python list (elements again modelled by their
`float` conversion) or some non-list value. -/
inductive PyLit where
  | list (xs : List (Option ℚ))
  | nonlist

/-- Python `[float(x) for x in xs]`: succeeds with the converted list only
when every element converts; a single failure raises (and the caller
substitutes a zero vector). -/
def allFloats (xs : List (Option ℚ)) : Option (List ℚ) :=
  xs.mapM (fun x => x)

/-- Translation of `EmbedderService._parse_embedding_string`
(embedder.py:246-322).  `le` models `ast.literal_eval` (an external
library call; `Option.none` = the call raised), `dim` is
`self.embedding_dim`.  Bracket-delimited strings are split on commas,
blank parts are skipped, unconvertible parts contribute `0.0`, and the
result is truncated or zero-padded to `dim`; every failure path returns
the zero vector of dimension `dim`. -/
def parse_embedding_string (le : String → Option PyLit) (dim : ℕ) :
    PyVal → List ℚ
  | PyVal.none => List.replicate dim 0
  | PyVal.list xs =>
    match allFloats xs with
    | some qs => qs
    | Option.none => List.replicate dim 0
  | PyVal.str s =>
    let t := Py.strip s.toList
    if Py.startsWithChar t '[' ∧ Py.endsWithChar t ']' then
      let content := Py.strip (t.drop 1).dropLast
      if content = [] then List.replicate dim 0
      else
        let result := (((Py.split ',' content).map Py.strip).filter
          (fun p => p ≠ [])).map (fun p => (Py.float? (String.mk p)).getD 0)
        if result.length = dim then result
        else if result.length > dim then result.take dim
        else result ++ List.replicate (dim - result.length) 0
    else
      match le (String.mk t) with
      | some (PyLit.list xs) =>
        match allFloats xs with
        | some qs => qs
        | Option.none => List.replicate dim 0
      | some PyLit.nonlist => List.replicate dim 0
      | Option.none => List.replicate dim 0
  | PyVal.other => List.replicate dim 0

/-- Dot product of two equal-length float arrays, `np.dot`. -/
noncomputable def dot (v1 v2 : List ℝ) : ℝ :=
  (List.zipWith (· * ·) v1 v2).sum

/-- Sum of squares of the entries of a float array. -/
noncomputable def sumsq (v : List ℝ) : ℝ :=
  (v.map (fun x => x * x)).sum

/-- Euclidean norm `np.linalg.norm(v)`. -/
noncomputable def norm2 (v : List ℝ) : ℝ :=
  Real.sqrt (sumsq v)

/-- Translation of `EmbedderService._cosine_similarity` (embedder.py:96-123):
both vectors are truncated to the shorter length (a no-op when the lengths
agree), zero-norm inputs yield `0.0`, otherwise `dot/(‖v1‖·‖v2‖)`. -/
noncomputable def cosine_similarity (vec1 vec2 : List ℝ) : ℝ :=
  let m := min vec1.length vec2.length
  let v1 := vec1.take m
  let v2 := vec2.take m
  if norm2 v1 = 0 ∨ norm2 v2 = 0 then 0
  else dot v1 v2 / (norm2 v1 * norm2 v2)

/-- Translation of `EmbedderService._euclidean_similarity`
(embedder.py:125-151): `1/(1 + ‖v1 - v2‖)` after truncation. -/
noncomputable def euclidean_similarity (vec1 vec2 : List ℝ) : ℝ :=
  let m := min vec1.length vec2.length
  let v1 := vec1.take m
  let v2 := vec2.take m
  1 / (1 + norm2 (List.zipWith (· - ·) v1 v2))

/-- Translation of `EmbedderService._normalized_euclidean_similarity`
(embedder.py:153-188): zero-norm inputs yield `0.0`; otherwise both
vectors are unit-normalized and the result is `max(0, 1 - dist/2)`. -/
noncomputable def normalized_euclidean_similarity (vec1 vec2 : List ℝ) : ℝ :=
  let m := min vec1.length vec2.length
  let v1 := vec1.take m
  let v2 := vec2.take m
  if norm2 v1 = 0 ∨ norm2 v2 = 0 then 0
  else
    let distance := norm2 (List.zipWith (fun a b => a / norm2 v1 - b / norm2 v2) v1 v2)
    max 0 (1 - distance / 2)

/-- Translation of `EmbedderService._adjusted_cosine_similarity`
(embedder.py:190-207).  The source's `elif cosine_sim > 0.95: return 0.9`
branch is kept even though it is unreachable (any value above `0.95` is
already above `0.9`). -/
noncomputable def adjusted_cosine_similarity (vec1 vec2 : List ℝ) : ℝ :=
  let c := cosine_similarity vec1 vec2
  if c > 9/10 then 17/20 + (c - 9/10) * (1/2)
  else if c > 19/20 then 9/10
  else c

/-- Translation of `EmbedderService._combined_similarity`
(embedder.py:209-230): `0.4 * adjusted_cosine + 0.6 * normalized_euclidean`. -/
noncomputable def combined_similarity (vec1 vec2 : List ℝ) : ℝ :=
  2/5 * adjusted_cosine_similarity vec1 vec2 +
    3/5 * normalized_euclidean_similarity vec1 vec2

/-- Translation of `EmbedderService._calculate_similarity`
(embedder.py:232-244): string-dispatched metric selection, defaulting to
the combined metric. -/
noncomputable def calculate_similarity (metric : String) (vec1 vec2 : List ℝ) : ℝ :=
  if metric = "euclidean" then euclidean_similarity vec1 vec2
  else if metric = "cosine" then cosine_similarity vec1 vec2
  else if metric = "combined" then combined_similarity vec1 vec2
  else combined_similarity vec1 vec2

/-- Translation of `EmbedderService._is_zero_vector` (embedder.py:324-334):
an empty list or a vector of norm below `0.001`. -/
def is_zero_vector (v : List ℝ) : Prop :=
  v = [] ∨ norm2 v < 1/1000

/-- Translation of `EmbedderService._calculate_vector_similarity`
(embedder.py:336-349): the similarity guarded by the zero-vector check,
returning the `-1.0` "no data" sentinel when either vector is zero. -/
noncomputable def calculate_vector_similarity (vec1 vec2 : List ℝ) : ℝ :=
  open Classical in
  if is_zero_vector vec1 ∨ is_zero_vector vec2 then -1
  else calculate_similarity SIMILARITY_METRIC vec1 vec2

/-- Translation of `EmbedderService._get_text_embedding` (embedder.py:71-93).
`encode` models `self.model.encode` (`Option.none` = the encoder raised);
empty or whitespace-only text and encoder failures yield the zero vector of
dimension `dim` (`self.embedding_dim`). -/
def get_text_embedding (encode : String → Option (List ℝ)) (dim : ℕ)
    (text : String) : List ℝ :=
  if text = "" ∨ Py.stripStr text = "" then List.replicate dim 0
  else
    match encode text with
    | some e => e
    | Option.none => List.replicate dim 0

/-- Tag-to-vector step of `_process_tag_embeddings` (embedder.py:542-555): a
NULL, empty, or explicit "no information" tag (`нет информации` /
`нет данных` after `str.lower()`) maps to the zero vector; every other tag
is embedded with `_get_text_embedding`. -/
def tag_embedding (encode : String → Option (List ℝ)) (dim : ℕ) :
    Option String → List ℝ
  | Option.none => List.replicate dim 0
  | some t =>
    if t = "" ∨ Py.lower t ∈ ["нет информации", "нет данных", ""] then
      List.replicate dim 0
    else get_text_embedding encode dim t

/-- Five per-tag similarity scores (`tag1_score` … `tag5_score`). -/
structure TagScores where
  tag1_score : ℝ
  tag2_score : ℝ
  tag3_score : ℝ
  tag4_score : ℝ
  tag5_score : ℝ

/-- Sentinel dictionary of `_calculate_similarities`: all five scores set to
the `-1.0` "no data" value (embedder.py:377-383, 433-439, 448-454). -/
noncomputable def no_data_scores : TagScores :=
  ⟨-1, -1, -1, -1, -1⟩

/-- Entries of a `TagScores` dictionary in tag order. -/
noncomputable def TagScores.values (t : TagScores) : List ℝ :=
  [t.tag1_score, t.tag2_score, t.tag3_score, t.tag4_score, t.tag5_score]

/-- Translation of `EmbedderService._calculate_coincide_24hr`
(embedder.py:611-631): arithmetic mean of the scores that are `>= 0`
(not merely non-sentinel), `0.0` when none qualify. -/
noncomputable def calculate_coincide_24hr (similarities : TagScores) : ℝ :=
  open Classical in
  let values := similarities.values
  let positive_values := values.filter (fun v => 0 ≤ v)
  if positive_values = [] then 0
  else positive_values.sum / positive_values.length

/-- Restatement of the spec sentence "the aggregate is the mean of the
valid (non-sentinel) per-facet scores; if no facet is valid, aggregate is
0", written from the spec's words for comparison with the code's
`calculate_coincide_24hr`. -/
noncomputable def spec_mean_of_valid (similarities : TagScores) : ℝ :=
  open Classical in
  let valid := similarities.values.filter (fun v => v ≠ -1)
  if valid = [] then 0
  else valid.sum / valid.length

/-- Row of `telegram_posts_top` as read by `_calculate_similarities`
(embedder.py:361-373): id, the `final` flag, and the five serialized
vector columns (TEXT, nullable). -/
structure TopRow where
  id : ℕ
  final : Bool
  vector1 : Option String
  vector2 : Option String
  vector3 : Option String
  vector4 : Option String
  vector5 : Option String
deriving DecidableEq

/-- Current item's five facet embeddings (`current_embeddings`, always a
list of exactly five vectors built by `_process_tag_embeddings`). -/
structure FacetEmbeddings where
  e1 : List ℝ
  e2 : List ℝ
  e3 : List ℝ
  e4 : List ℝ
  e5 : List ℝ

/-- SQL query of `_calculate_similarities` (embedder.py:361-373):
`WHERE id < $1 AND final = TRUE AND vector1..5 IS NOT NULL ORDER BY id DESC
LIMIT 100` over the whole `telegram_posts_top` table. -/
def fetch_previous_records (table : List TopRow) (current_post_id : ℕ) :
    List TopRow :=
  ((table.filter (fun r => decide (r.id < current_post_id) && r.final &&
      r.vector1.isSome && r.vector2.isSome && r.vector3.isSome &&
      r.vector4.isSome && r.vector5.isSome)).insertionSort
    (fun a b => b.id ≤ a.id)).take 100

/-- Database column value passed to `_parse_embedding_string`: the TEXT
column as a Python `str`, or Python `None` for SQL NULL. -/
def column_val : Option String → PyVal
  | some s => PyVal.str s
  | Option.none => PyVal.none

/-- Parsed vector of one `vectorN` column of a prior row, cast to `ℝ`
(embedder.py:393-399). -/
noncomputable def row_vector (le : String → Option PyLit) (o : Option String) :
    List ℝ :=
  (parse_embedding_string le EMBEDDING_DIMENSION (column_val o)).map (fun q => (q : ℝ))

/-- Per-record similarity dictionary of the loop body of
`_calculate_similarities` (embedder.py:401-412): the five
`_calculate_vector_similarity` values of the current embeddings against
the prior record's parsed vectors. -/
noncomputable def record_similarities (le : String → Option PyLit)
    (cur : FacetEmbeddings) (r : TopRow) : TagScores :=
  ⟨calculate_vector_similarity cur.e1 (row_vector le r.vector1),
   calculate_vector_similarity cur.e2 (row_vector le r.vector2),
   calculate_vector_similarity cur.e3 (row_vector le r.vector3),
   calculate_vector_similarity cur.e4 (row_vector le r.vector4),
   calculate_vector_similarity cur.e5 (row_vector le r.vector5)⟩

/-- Valid (non-sentinel) entries collected by the loop
(embedder.py:410-412): the similarities different from `-1.0`. -/
noncomputable def valid_similarities (t : TagScores) : List ℝ :=
  open Classical in t.values.filter (fun s => s ≠ -1)

/-- Average similarity of one prior record (embedder.py:414-418): mean of
the valid entries, `0.0` when none are valid. -/
noncomputable def record_average (le : String → Option PyLit)
    (cur : FacetEmbeddings) (r : TopRow) : ℝ :=
  open Classical in
  let v := valid_similarities (record_similarities le cur r)
  if v = [] then 0 else v.sum / v.length

/-- Translation of `EmbedderService._calculate_similarities`
(embedder.py:351-454): fetch the qualifying prior rows, keep the record
with the strictly largest average (initial best average `-1.0`, so ties
keep the newest record), and return that record's five similarity values;
with no rows, or no record ever selected, return the all-`-1.0` sentinel
dictionary. -/
noncomputable def calculate_similarities (le : String → Option PyLit)
    (table : List TopRow) (current_post_id : ℕ) (cur : FacetEmbeddings) :
    TagScores :=
  open Classical in
  let previous_records := fetch_previous_records table current_post_id
  if previous_records.isEmpty then no_data_scores
  else
    let best := previous_records.foldl
      (fun acc r =>
        if record_average le cur r > acc.2 then
          (some (record_similarities le cur r), record_average le cur r)
        else acc)
      ((Option.none : Option TagScores), (-1 : ℝ))
    match best.1 with
    | some t => t
    | Option.none => no_data_scores

end Embedder

namespace Deepseek

/-- Outcome of one HTTP attempt inside `call_deepseek_api`
(deepseek_service.py:90-141): an HTTP response (with, for status 200, the
optional `tool_calls[0].function.arguments` string), a connection error or
timeout (`aiohttp.ClientConnectorError` / `asyncio.TimeoutError`), or any
other exception raised while handling the attempt. -/
inductive Attempt where
  | http (status : ℕ) (tool_args : Option String)
  | conn_error
  | other_exc

/-- Retryable statuses (deepseek_service.py:115). -/
def transient_status (s : ℕ) : Prop := s = 429 ∨ s = 500 ∨ s = 503

/-- Outcome that makes the loop retry the attempt: a 429/500/503 response
or a connection error/timeout. -/
def transient : Attempt → Prop
  | Attempt.http s _ => transient_status s
  | Attempt.conn_error => True
  | Attempt.other_exc => False

/-- Loop of `call_deepseek_api` (deepseek_service.py:90-144), fuelled by
the remaining iterations of `range(1, MAX_RETRIES + 1)`.  `jl` models
`json.loads` on the tool-call arguments (`Option.none` = parse error,
caught by the generic `except` and turned into `None`); `env k` is the
outcome of the `k`-th attempt.  Returns the result, the list of back-off
sleeps (in seconds) performed, and the number of attempts used. -/
def loop {J : Type} (jl : String → Option J) (env : ℕ → Attempt) :
    ℕ → ℕ → List ℕ → Option J × List ℕ × ℕ
  | attempt, 0, sleeps => (Option.none, sleeps, attempt - 1)
  | attempt, fuel + 1, sleeps =>
    match env attempt with
    | Attempt.http s args =>
      if s = 200 then
        match args with
        | some a =>
          match jl a with
          | some j => (some j, sleeps, attempt)
          | Option.none => (Option.none, sleeps, attempt)
        | Option.none => (Option.none, sleeps, attempt)
      else if s = 429 ∨ s = 500 ∨ s = 503 then
        if attempt < 3 then loop jl env (attempt + 1) fuel (sleeps ++ [2 ^ (attempt - 1)])
        else loop jl env (attempt + 1) fuel sleeps
      else (Option.none, sleeps, attempt)
    | Attempt.conn_error =>
      if attempt < 3 then loop jl env (attempt + 1) fuel (sleeps ++ [2 ^ (attempt - 1)])
      else loop jl env (attempt + 1) fuel sleeps
    | Attempt.other_exc => (Option.none, sleeps, attempt)

/-- Translation of `call_deepseek_api` (deepseek_service.py:30-144) with
`MAX_RETRIES = 3`: three attempts starting from attempt 1 with no sleeps
performed yet. -/
def call_deepseek_api {J : Type} (jl : String → Option J)
    (env : ℕ → Attempt) : Option J × List ℕ × ℕ :=
  loop jl env 1 3 []

end Deepseek

namespace MsgHandle

/-- Heterogeneous Python value inside the tuple returned by
`process_message_by_form` / `process_message_by_essence`. -/
inductive PyObj where
  | b (x : Bool)
  | s (x : String)
  | num (x : ℚ)
deriving DecidableEq

/-- Parsed JSON of a successful `FILTER_INITIAL` call: the dictionary read
with `.get("filter", False)` and `.get("explain", ...)`
(msg_handle.py:62-63). -/
structure FilterResp where
  filter : Option Bool
  explain : Option String

/-- Parsed JSON of a successful `CONTEXT_FILTRATION` call: eight score
fields and an explanation, each read with `.get(..., 0)` defaults
(msg_handle.py:95-104). -/
structure ContextResp where
  subject_score : Option ℚ
  object_score : Option ℚ
  which_score : Option ℚ
  action_score : Option ℚ
  time_place_score : Option ℚ
  how_score : Option ℚ
  reason_score : Option ℚ
  consequences_score : Option ℚ
  context_explain : Option String

/-- Environment of one `process_message_by_form` run: the outcome of the
initial-filter API call and (if reached) of the context API call.
`Except.error` = `call_deepseek_api` raised; `Except.ok Option.none` =
it returned `None`. -/
structure FormEnv where
  initial : Except Unit (Option FilterResp)
  context : Except Unit (Option ContextResp)

/-- Eight zero context scores, as assigned in every degraded branch of
`process_message_by_form`. -/
def zeroScores : List PyObj :=
  [PyObj.num 0, PyObj.num 0, PyObj.num 0, PyObj.num 0,
   PyObj.num 0, PyObj.num 0, PyObj.num 0, PyObj.num 0]

/-- Translation of `process_message_by_form` (msg_handle.py:11-147).
Returns the 11-element Python tuple
`(filter_initial, filter_initial_explain, subject_score, object_score,
which_score, action_score, time_place_score, how_score, reason_score,
consequences_score, context_explain)` together with a flag recording
whether the context API call was made. -/
def process_message_by_form (env : FormEnv) : List PyObj × Bool :=
  match env.initial with
  | Except.error _ =>
    ([PyObj.b false, PyObj.s "Критическая ошибка API"] ++ zeroScores ++
      [PyObj.s "Ошибка при анализе контекста"], false)
  | Except.ok Option.none =>
    ([PyObj.b false, PyObj.s "Невалидный или пустой ответ от ИИ"] ++ zeroScores ++
      [PyObj.s "Невозможно проанализировать контекст из-за ошибки фильтрации"], false)
  | Except.ok (some resp) =>
    let filter_initial := resp.filter.getD false
    let filter_initial_explain := resp.explain.getD "Нет объяснения от ИИ."
    if filter_initial = false then
      ([PyObj.b false, PyObj.s filter_initial_explain] ++ zeroScores ++
        [PyObj.s "запретная тема"], false)
    else
      match env.context with
      | Except.error _ =>
        ([PyObj.b true, PyObj.s filter_initial_explain] ++ zeroScores ++
          [PyObj.s "Ошибка контекстного анализа"], true)
      | Except.ok Option.none =>
        ([PyObj.b true, PyObj.s filter_initial_explain] ++ zeroScores ++
          [PyObj.s "Не удалось выполнить контекстный анализ"], true)
      | Except.ok (some c) =>
        ([PyObj.b true, PyObj.s filter_initial_explain,
          PyObj.num (c.subject_score.getD 0), PyObj.num (c.object_score.getD 0),
          PyObj.num (c.which_score.getD 0), PyObj.num (c.action_score.getD 0),
          PyObj.num (c.time_place_score.getD 0), PyObj.num (c.how_score.getD 0),
          PyObj.num (c.reason_score.getD 0), PyObj.num (c.consequences_score.getD 0),
          PyObj.s (c.context_explain.getD "Нет объяснения контекста")], true)

/-- Python tuple unpacking `a, b, c, d = t`: succeeds only when the tuple
has exactly four elements, otherwise raises `ValueError`. -/
def unpack4 (t : List PyObj) : Except String (PyObj × PyObj × PyObj × PyObj) :=
  match t with
  | [a, b, c, d] => Except.ok (a, b, c, d)
  | _ => Except.error "ValueError: values to unpack"

end MsgHandle

namespace Analyzer

/-- Row of `telegram_posts` as used by `_process_unprocessed_posts`
(analyzer.py:60-141); only the fields the batch logic touches. -/
structure RawPost where
  id : ℕ
  text_content : String
  analyzed : Bool
deriving DecidableEq

/-- Per-row body of `_process_unprocessed_posts` (analyzer.py:87-138) up to
its first statement: `filter_initial, filter_initial_explain, context_score,
context_explain = await process_message_by_form(...)` (analyzer.py:94-96).
The right-hand side is an 11-tuple, so the unpacking itself raises
`ValueError`; on (hypothetical) success the four unpacked values would feed
the threshold tests and the UPDATE. -/
def row_step (env : MsgHandle.FormEnv) :
    Except String (MsgHandle.PyObj × MsgHandle.PyObj × MsgHandle.PyObj × MsgHandle.PyObj) :=
  MsgHandle.unpack4 (MsgHandle.process_message_by_form env).1

/-- Marks a raw post as analyzed (the `UPDATE ... SET ... analyzed = TRUE`
of analyzer.py:116-138). -/
def mark_analyzed (table : List RawPost) (post_id : ℕ) : List RawPost :=
  table.map (fun p => if p.id = post_id then { p with analyzed := true } else p)

/-- Sequential row loop of `_process_unprocessed_posts` (analyzer.py:87-138).
There is no per-row `try`: the whole batch sits inside one `try` block
(analyzer.py:69-141), so the first row exception aborts the loop and the
remaining rows — including the failing one — receive no UPDATE. -/
def process_rows (env : ℕ → MsgHandle.FormEnv) :
    List RawPost → List RawPost → List RawPost
  | [], table => table
  | p :: rest, table =>
    match row_step (env p.id) with
    | Except.error _ => table
    | Except.ok _ => process_rows env rest (mark_analyzed table p.id)

/-- Translation of `_process_unprocessed_posts` (analyzer.py:60-141): claim
up to `BATCH_SIZE = 5` rows with `analyzed = FALSE` and process them
sequentially inside a single batch-level `try`. -/
def process_unprocessed_posts (env : ℕ → MsgHandle.FormEnv)
    (table : List RawPost) : List RawPost :=
  process_rows env ((table.filter (fun p => !p.analyzed)).take 5) table

end Analyzer

namespace Commentator

/-- One of the four chain endpoints called by `_execute_four_step_request`
(commentator.py:146-299): `URL_AUTHOR`, `URL_APPROACH`, `URL_WRITE`,
`URL_ASSESS`. -/
inductive Step where
  | author
  | approach
  | write
  | assess

/-- JSON object inside an endpoint response, with the fields the chain
reads: `author`, `comment`, and `score` (for `score`, the outer `Option`
is key presence and the inner `Option` is whether `float()` converts it,
commentator.py:274-291). -/
structure ApiObj where
  author : Option String
  comment : Option String
  score : Option (Option ℚ)

/-- Result of `_make_api_request` (commentator.py:81-144) after JSON
parsing: `Option.none` for any failure (non-200 status, JSON decode error,
exception), otherwise the parsed JSON — a list of objects or some
non-list value. -/
inductive ApiJson where
  | list (objs : List ApiObj)
  | other

/-- First element of a response, as extracted by the repeated pattern
`isinstance(result, list) and len(result) > 0` followed by `result[0]`.
Yields `Option.none` exactly when the chain takes one of its failure
branches for this response (`None`/falsy result, non-list, empty list). -/
def firstObj? : Option ApiJson → Option ApiObj
  | some (ApiJson.list (o :: _)) => some o
  | _ => Option.none

/-- One candidate commentary: attributed author, text, quality score. -/
structure Candidate where
  author : String
  comment : String
  score : ℚ
deriving DecidableEq

/-- Sentinel candidate returned on every failure path of
`_execute_four_step_request`: `{'author': 'нет', 'comment': 'нет',
'score': 0.0}`. -/
def sentinel : Candidate := ⟨"нет", "нет", 0⟩

/-- Translation of `_execute_four_step_request` (commentator.py:146-299):
the strictly sequential AUTHOR → APPROACH → WRITE → ASSESS chain, where
`envr` gives each endpoint's response for this request number.  Every
failure (failed request, non-list or empty response, missing `author` /
`comment` / `score` field, unconvertible score) yields the sentinel
candidate; otherwise the candidate carries WRITE's author and comment and
ASSESS's score. -/
def execute_four_step_request (envr : Step → Option ApiJson) : Candidate :=
  match firstObj? (envr Step.author) with
  | Option.none => sentinel
  | some author_data =>
    match author_data.author with
    | Option.none => sentinel
    | some _ =>
      match firstObj? (envr Step.approach) with
      | Option.none => sentinel
      | some _ =>
        match firstObj? (envr Step.write) with
        | Option.none => sentinel
        | some write_data =>
          match write_data.comment, write_data.author with
          | some write_text, some write_author =>
            match firstObj? (envr Step.assess) with
            | Option.none => sentinel
            | some assess_data =>
              match assess_data.score with
              | Option.none => sentinel
              | some Option.none => sentinel
              | some (some q) => ⟨write_author, write_text, q⟩
          | _, _ => sentinel

/-- The three candidates produced by the `for i in range(3)` loop of
`_process_single_post` (commentator.py:310-319); `env i` is the endpoint
environment of request number `i`. -/
def comments_data (env : ℕ → Step → Option ApiJson) : List Candidate :=
  [execute_four_step_request (env 1),
   execute_four_step_request (env 2),
   execute_four_step_request (env 3)]

/-- Python `max(comments_data, key=lambda x: x['score'])` on a non-empty
list: keep the current maximum, replacing it only on a strictly larger
score (so the earliest maximal candidate wins).  The empty case cannot
occur (the loop always appends three candidates). -/
def best_comment : List Candidate → Candidate
  | [] => sentinel
  | c :: rest => rest.foldl (fun b x => if x.score > b.score then x else b) c

/-- Translation of `_process_single_post` (commentator.py:301-346): run the
three four-step chains, pick the best candidate, and UPDATE the row with
the three scores, the best author/comment/score, and `analyzed = TRUE`. -/
def process_single_post (env : ℕ → Step → Option ApiJson)
    (p : Finisher.TopTopPost) : Finisher.TopTopPost :=
  let cs := comments_data env
  let best := best_comment cs
  { p with
    comment_score_1 := some ((cs.getD 0 sentinel).score),
    comment_score_2 := some ((cs.getD 1 sentinel).score),
    comment_score_3 := some ((cs.getD 2 sentinel).score),
    author_best := some best.author,
    comment_best := some best.comment,
    comment_score_best := some best.score,
    analyzed := true }

/-- Per-row body of `_process_top_top_posts` (commentator.py:406-425): the
row-level `try`/`except` marks the row `analyzed = TRUE` even when
`_process_single_post` raises (`exc = true` models an exception inside the
`try`). -/
def row_step (exc : Bool) (env : ℕ → Step → Option ApiJson)
    (p : Finisher.TopTopPost) : Finisher.TopTopPost :=
  if exc then { p with analyzed := true }
  else process_single_post env p

end Commentator

/-- Unpacking a list of eleven Python objects into four variables raises
`ValueError`. -/
theorem unpack4_error_of_length (t : List MsgHandle.PyObj) (h : t.length = 11) :
    MsgHandle.unpack4 t = Except.error "ValueError: values to unpack" := by
  rcases t with _ | ⟨a, _ | ⟨b, _ | ⟨c, _ | ⟨d, _ | ⟨e, rest⟩⟩⟩⟩⟩ <;>
    first
      | rfl
      | simp at h

/-- The tuple returned by `process_message_by_form` always has eleven
elements, on every control path (msg_handle.py:57, 147). -/
theorem form_tuple_length (env : MsgHandle.FormEnv) :
    (MsgHandle.process_message_by_form env).1.length = 11 := by
  rcases env with ⟨i, c⟩
  rcases i with e | o
  · rfl
  · rcases o with _ | resp
    · rfl
    · rw [MsgHandle.process_message_by_form]
      dsimp only
      by_cases hf : resp.filter.getD false = false
      · rw [if_pos hf]; rfl
      · rw [if_neg hf]
        rcases c with e2 | o2
        · rfl
        · rcases o2 with _ | cc <;> rfl

/-- The analyzer's per-row unpacking `filter_initial, filter_initial_explain,
context_score, context_explain = await process_message_by_form(...)`
(analyzer.py:94-96) raises `ValueError` for every environment. -/
theorem analyzer_row_step_error (env : MsgHandle.FormEnv) :
    Analyzer.row_step env = Except.error "ValueError: values to unpack" :=
  unpack4_error_of_length _ (form_tuple_length env)

/-- Because every row raises before its UPDATE and the analyzer catches
exceptions only at batch level, `_process_unprocessed_posts` leaves the
table completely unchanged. -/
theorem analyzer_batch_unchanged (env : ℕ → MsgHandle.FormEnv)
    (table : List Analyzer.RawPost) :
    Analyzer.process_unprocessed_posts env table = table := by
  rw [Analyzer.process_unprocessed_posts]
  cases h : (table.filter (fun p => !p.analyzed)).take 5 with
  | nil => rfl
  | cons p rest =>
    rw [Analyzer.process_rows, analyzer_row_step_error]

/-- C6: inside `process_message_by_form` a rejected initial filter does
short-circuit (all eight contextual scores are returned as 0 and the
context API call is never made), but the claim fails at the analyzer: the
function returns an 11-tuple which `_process_unprocessed_posts` unpacks
into four variables, so every row raises `ValueError` before anything is
recorded, and the batch never updates any row — in particular no zero
context score and no essence explanation is ever stored. -/
theorem c6_short_circuit_unpack_bug :
    (∀ env : MsgHandle.FormEnv, (MsgHandle.process_message_by_form env).1.length = 11) ∧
    (∀ (env : MsgHandle.FormEnv) (resp : MsgHandle.FilterResp),
      env.initial = Except.ok (some resp) → resp.filter.getD false = false →
      (MsgHandle.process_message_by_form env).2 = false ∧
      (MsgHandle.process_message_by_form env).1 =
        [MsgHandle.PyObj.b false,
         MsgHandle.PyObj.s (resp.explain.getD "Нет объяснения от ИИ.")] ++
          MsgHandle.zeroScores ++ [MsgHandle.PyObj.s "запретная тема"]) ∧
    (∀ env : MsgHandle.FormEnv,
      Analyzer.row_step env = Except.error "ValueError: values to unpack") ∧
    (∀ (env : ℕ → MsgHandle.FormEnv) (table : List Analyzer.RawPost),
      Analyzer.process_unprocessed_posts env table = table) := by
  refine ⟨form_tuple_length, ?_, analyzer_row_step_error, analyzer_batch_unchanged⟩
  intro env resp hi hf
  rcases env with ⟨i, c⟩
  dsimp only at hi
  subst hi
  rw [MsgHandle.process_message_by_form]
  dsimp only
  rw [if_pos hf]
  exact ⟨rfl, rfl⟩

/-- Witness for C6: with a concrete environment whose initial filter
rejects, the form tuple is the rejection 11-tuple with zero scores and no
context call, and the analyzer row step still raises `ValueError`. -/
theorem c6_short_circuit_unpack_bug_witness :
    (MsgHandle.process_message_by_form
        ⟨Except.ok (some ⟨some false, some "реклама"⟩), Except.ok Option.none⟩).2 = false ∧
    (MsgHandle.process_message_by_form
        ⟨Except.ok (some ⟨some false, some "реклама"⟩), Except.ok Option.none⟩).1 =
      [MsgHandle.PyObj.b false, MsgHandle.PyObj.s "реклама"] ++
        MsgHandle.zeroScores ++ [MsgHandle.PyObj.s "запретная тема"] ∧
    Analyzer.row_step ⟨Except.ok (some ⟨some false, some "реклама"⟩), Except.ok Option.none⟩ =
      Except.error "ValueError: values to unpack" :=
  ⟨(c6_short_circuit_unpack_bug.2.1 _ ⟨some false, some "реклама"⟩ rfl rfl).1,
   (c6_short_circuit_unpack_bug.2.1 _ ⟨some false, some "реклама"⟩ rfl rfl).2,
   c6_short_circuit_unpack_bug.2.2.1 _⟩

/-- C9 fails on the raw-tier analyzer: at the concrete one-row batch below
the per-row processing raises (`ValueError` from the 11-into-4 unpacking),
the exception is caught only at batch level, and the row is left with
`analyzed = FALSE` — it is not marked and will be re-claimed on the next
poll, contradicting the claim that every stage marks failing rows. -/
theorem c9_counterexample :
    Analyzer.row_step ⟨Except.ok Option.none, Except.ok Option.none⟩ =
      Except.error "ValueError: values to unpack" ∧
    Analyzer.process_unprocessed_posts
        (fun _ => ⟨Except.ok Option.none, Except.ok Option.none⟩)
        [⟨1, "пример", false⟩] = [⟨1, "пример", false⟩] ∧
    (Analyzer.process_unprocessed_posts
        (fun _ => ⟨Except.ok Option.none, Except.ok Option.none⟩)
        [⟨1, "пример", false⟩]).map Analyzer.RawPost.analyzed = [false] :=
  ⟨rfl, rfl, rfl⟩

/-- C9 (amended): the top-tier finisher marks every claimed row
`finished = TRUE` whether or not the row raised, and the top-top
commentator marks every claimed row `analyzed = TRUE` whether or not the
row raised; the raw-tier analyzer, however, has no per-row handler — its
batch-level `except` aborts the loop, and (with the current 11-into-4
unpacking, which raises on every row) the batch leaves the table
unchanged, so a failing raw row is never marked `analyzed`. -/
theorem c9_amended_per_row_marking :
    (∀ (th : ℚ) (exc : Bool) (p : Finisher.TopPost),
      (Finisher.top_row_step th exc p).finished = true) ∧
    (∀ (exc : Bool) (env : ℕ → Commentator.Step → Option Commentator.ApiJson)
        (p : Finisher.TopTopPost),
      (Commentator.row_step exc env p).analyzed = true) ∧
    (∀ (env : ℕ → MsgHandle.FormEnv) (table : List Analyzer.RawPost),
      Analyzer.process_unprocessed_posts env table = table) := by
  refine ⟨?_, ?_, analyzer_batch_unchanged⟩
  · intro th exc p
    cases exc <;> simp [Finisher.top_row_step]
  · intro exc env p
    cases exc <;> simp [Commentator.row_step, Commentator.process_single_post]

/-- Python `max` over three candidates: the result is one of the three and
carries the maximum score. -/
theorem best_comment_three (x y z : Commentator.Candidate) :
    Commentator.best_comment [x, y, z] ∈ [x, y, z] ∧
    ∀ c ∈ [x, y, z], c.score ≤ (Commentator.best_comment [x, y, z]).score := by
  rw [Commentator.best_comment]
  dsimp only [List.foldl]
  split_ifs with h1 h2 h3
  · refine ⟨by simp, ?_⟩
    intro c hcm
    simp only [List.mem_cons, List.not_mem_nil, or_false] at hcm
    rcases hcm with rfl | rfl | rfl <;> linarith
  · refine ⟨by simp, ?_⟩
    intro c hcm
    simp only [List.mem_cons, List.not_mem_nil, or_false] at hcm
    rcases hcm with rfl | rfl | rfl <;> linarith [le_of_not_lt h2]
  · refine ⟨by simp, ?_⟩
    intro c hcm
    simp only [List.mem_cons, List.not_mem_nil, or_false] at hcm
    rcases hcm with rfl | rfl | rfl <;> linarith [le_of_not_lt h1]
  · refine ⟨by simp, ?_⟩
    intro c hcm
    simp only [List.mem_cons, List.not_mem_nil, or_false] at hcm
    rcases hcm with rfl | rfl | rfl <;> linarith [le_of_not_lt h1, le_of_not_lt h3]

/-- Failure of any single chain request forces the sentinel candidate. -/
theorem four_step_sentinel_of_failure
    (envr : Commentator.Step → Option Commentator.ApiJson)
    (st : Commentator.Step) (hst : envr st = Option.none) :
    Commentator.execute_four_step_request envr = Commentator.sentinel := by
  rw [Commentator.execute_four_step_request]
  cases st with
  | author =>
    rw [hst]
    rfl
  | approach =>
    cases ha : Commentator.firstObj? (envr Commentator.Step.author) with
    | none => rfl
    | some aobj =>
      dsimp only
      cases haf : aobj.author with
      | none => rfl
      | some an =>
        dsimp only
        rw [hst]
        rfl
  | write =>
    cases ha : Commentator.firstObj? (envr Commentator.Step.author) with
    | none => rfl
    | some aobj =>
      dsimp only
      cases haf : aobj.author with
      | none => rfl
      | some an =>
        dsimp only
        cases hap : Commentator.firstObj? (envr Commentator.Step.approach) with
        | none => rfl
        | some apo =>
          dsimp only
          rw [hst]
          rfl
  | assess =>
    cases ha : Commentator.firstObj? (envr Commentator.Step.author) with
    | none => rfl
    | some aobj =>
      dsimp only
      cases haf : aobj.author with
      | none => rfl
      | some an =>
        dsimp only
        cases hap : Commentator.firstObj? (envr Commentator.Step.approach) with
        | none => rfl
        | some apo =>
          dsimp only
          cases hw : Commentator.firstObj? (envr Commentator.Step.write) with
          | none => rfl
          | some wobj =>
            dsimp only
            cases hwc : wobj.comment with
            | none => rfl
            | some wt =>
              cases hwa : wobj.author with
              | none => dsimp only
              | some wa =>
                dsimp only
                rw [hst]
                rfl

/-- C8: exactly three candidate commentaries are generated per top-tier
finalized item; a failed request at any of the four chain steps yields the
sentinel candidate (score 0) instead of aborting the item; the selected
candidate is one of the three and has the maximum score; and when every
step of every candidate fails, the best score is 0, the item is still
marked `analyzed`, and the finisher subsequently marks it
`finished = TRUE` (its promoted `news_final_score` is always non-NULL). -/
theorem c8_commentary_fallback :
    (∀ env : ℕ → Commentator.Step → Option Commentator.ApiJson,
      (Commentator.comments_data env).length = 3) ∧
    (∀ (envr : Commentator.Step → Option Commentator.ApiJson)
        (st : Commentator.Step), envr st = Option.none →
      Commentator.execute_four_step_request envr = Commentator.sentinel) ∧
    (∀ env : ℕ → Commentator.Step → Option Commentator.ApiJson,
      Commentator.best_comment (Commentator.comments_data env) ∈
        Commentator.comments_data env ∧
      ∀ c ∈ Commentator.comments_data env,
        c.score ≤ (Commentator.best_comment (Commentator.comments_data env)).score) ∧
    (∀ (p : Finisher.TopTopPost) (q : ℚ), p.news_final_score = some q →
      (Commentator.process_single_post (fun _ _ => Option.none) p).analyzed = true ∧
      (Commentator.process_single_post (fun _ _ => Option.none) p).comment_score_best =
        some 0 ∧
      (Finisher.top_top_row_step
        (Commentator.process_single_post (fun _ _ => Option.none) p)).finished = true) := by
  refine ⟨fun env => rfl, four_step_sentinel_of_failure, fun env => best_comment_three _ _ _, ?_⟩
  intro p q hq
  refine ⟨rfl, rfl, ?_⟩
  rw [Finisher.top_top_row_step]
  have hb : (Commentator.process_single_post (fun _ _ => Option.none) p).comment_score_best =
      some 0 := rfl
  have hn : (Commentator.process_single_post (fun _ _ => Option.none) p).news_final_score =
      some q := hq
  rw [hb, hn]

/-- Witness for C8 at a concrete promoted row whose every chain request
fails: the row ends analyzed with best score 0 and is then finished. -/
theorem c8_commentary_fallback_witness :
    (Commentator.process_single_post (fun _ _ => Option.none)
      ⟨7, "текст", some 5, Option.none, Option.none, Option.none, Option.none,
        Option.none, Option.none, Option.none, false, false⟩).analyzed = true ∧
    (Commentator.process_single_post (fun _ _ => Option.none)
      ⟨7, "текст", some 5, Option.none, Option.none, Option.none, Option.none,
        Option.none, Option.none, Option.none, false, false⟩).comment_score_best = some 0 ∧
    (Finisher.top_top_row_step (Commentator.process_single_post (fun _ _ => Option.none)
      ⟨7, "текст", some 5, Option.none, Option.none, Option.none, Option.none,
        Option.none, Option.none, Option.none, false, false⟩)).finished = true :=
  c8_commentary_fallback.2.2.2
    ⟨7, "текст", some 5, Option.none, Option.none, Option.none, Option.none,
      Option.none, Option.none, Option.none, false, false⟩ 5 rfl

/-- Sum of squares of a float array is nonnegative. -/
theorem sumsq_nonneg (v : List ℝ) : 0 ≤ Embedder.sumsq v := by
  refine List.sum_nonneg ?_
  intro x hx
  rcases List.mem_map.mp hx with ⟨y, _, rfl⟩
  exact mul_self_nonneg y

/-- Euclidean norms are nonnegative. -/
theorem norm2_nonneg (v : List ℝ) : 0 ≤ Embedder.norm2 v :=
  Real.sqrt_nonneg _

/-- Cauchy–Schwarz for list dot products, squared form. -/
theorem dot_sq_le (v1 : List ℝ) : ∀ v2 : List ℝ,
    (Embedder.dot v1 v2) ^ 2 ≤ Embedder.sumsq v1 * Embedder.sumsq v2 := by
  induction v1 with
  | nil =>
    intro v2
    simp [Embedder.dot, Embedder.sumsq]
  | cons a t ih =>
    intro v2
    rcases v2 with _ | ⟨b, u⟩
    · simp [Embedder.dot, Embedder.sumsq]
    · have hd := ih u
      have hs1 := sumsq_nonneg t
      have hs2 := sumsq_nonneg u
      have hexp1 : Embedder.dot (a :: t) (b :: u) = a * b + Embedder.dot t u := by
        simp [Embedder.dot]
      have hexp2 : Embedder.sumsq (a :: t) = a * a + Embedder.sumsq t := by
        simp [Embedder.sumsq]
      have hexp3 : Embedder.sumsq (b :: u) = b * b + Embedder.sumsq u := by
        simp [Embedder.sumsq]
      rw [hexp1, hexp2, hexp3]
      rcases eq_or_lt_of_le hs2 with h0 | hpos
      · have hzero : Embedder.dot t u = 0 := by
          have := hd
          rw [← h0] at this
          nlinarith [sq_nonneg (Embedder.dot t u)]
        rw [← h0, hzero]
        nlinarith [sq_nonneg b, sq_nonneg a, mul_self_nonneg b]
      · nlinarith [sq_nonneg (a * Embedder.sumsq u - b * Embedder.dot t u),
          mul_nonneg (mul_self_nonneg b) (sub_nonneg.mpr hd),
          mul_pos hpos hpos]

/-- Cauchy–Schwarz in norm form. -/
theorem abs_dot_le (v1 v2 : List ℝ) :
    |Embedder.dot v1 v2| ≤ Embedder.norm2 v1 * Embedder.norm2 v2 := by
  have h := dot_sq_le v1 v2
  have habs : |Embedder.dot v1 v2| = Real.sqrt ((Embedder.dot v1 v2) ^ 2) := by
    rw [Real.sqrt_sq_eq_abs]
  rw [habs, Embedder.norm2, Embedder.norm2,
    ← Real.sqrt_mul (sumsq_nonneg v1)]
  exact Real.sqrt_le_sqrt h

/-- Raw cosine similarity lies in `[-1, 1]`. -/
theorem cosine_similarity_bounds (v1 v2 : List ℝ) :
    -1 ≤ Embedder.cosine_similarity v1 v2 ∧ Embedder.cosine_similarity v1 v2 ≤ 1 := by
  rw [Embedder.cosine_similarity]
  by_cases h : Embedder.norm2 (v1.take (min v1.length v2.length)) = 0 ∨
      Embedder.norm2 (v2.take (min v1.length v2.length)) = 0
  · rw [if_pos h]
    norm_num
  · rw [if_neg h]
    push_neg at h
    set w1 := v1.take (min v1.length v2.length)
    set w2 := v2.take (min v1.length v2.length)
    have h1 : 0 < Embedder.norm2 w1 := lt_of_le_of_ne (norm2_nonneg w1) (Ne.symm h.1)
    have h2 : 0 < Embedder.norm2 w2 := lt_of_le_of_ne (norm2_nonneg w2) (Ne.symm h.2)
    have hcs := abs_dot_le w1 w2
    have hprod : 0 < Embedder.norm2 w1 * Embedder.norm2 w2 := mul_pos h1 h2
    rw [abs_le] at hcs
    constructor
    · rw [le_div_iff₀ hprod]
      linarith [hcs.1]
    · rw [div_le_one hprod]
      exact hcs.2

/-- Adjusted cosine similarity never exceeds `0.9`. -/
theorem adjusted_cosine_le (v1 v2 : List ℝ) :
    Embedder.adjusted_cosine_similarity v1 v2 ≤ 9/10 := by
  have hb := cosine_similarity_bounds v1 v2
  rw [Embedder.adjusted_cosine_similarity]
  by_cases h1 : Embedder.cosine_similarity v1 v2 > 9/10
  · rw [if_pos h1]
    linarith [hb.2]
  · rw [if_neg h1]
    by_cases h2 : Embedder.cosine_similarity v1 v2 > 19/20
    · rw [if_pos h2]
    · rw [if_neg h2]
      linarith

/-- Adjusted cosine similarity is at least `-1`. -/
theorem adjusted_cosine_ge (v1 v2 : List ℝ) :
    -1 ≤ Embedder.adjusted_cosine_similarity v1 v2 := by
  have hb := cosine_similarity_bounds v1 v2
  rw [Embedder.adjusted_cosine_similarity]
  by_cases h1 : Embedder.cosine_similarity v1 v2 > 9/10
  · rw [if_pos h1]
    linarith
  · rw [if_neg h1]
    by_cases h2 : Embedder.cosine_similarity v1 v2 > 19/20
    · rw [if_pos h2]
      norm_num
    · rw [if_neg h2]
      exact hb.1

/-- Normalized Euclidean similarity lies in `[0, 1]`. -/
theorem normalized_euclidean_bounds (v1 v2 : List ℝ) :
    0 ≤ Embedder.normalized_euclidean_similarity v1 v2 ∧
    Embedder.normalized_euclidean_similarity v1 v2 ≤ 1 := by
  rw [Embedder.normalized_euclidean_similarity]
  by_cases h : Embedder.norm2 (v1.take (min v1.length v2.length)) = 0 ∨
      Embedder.norm2 (v2.take (min v1.length v2.length)) = 0
  · rw [if_pos h]
    norm_num
  · rw [if_neg h]
    constructor
    · exact le_max_left 0 _
    · refine max_le (by norm_num) ?_
      have := norm2_nonneg (List.zipWith
        (fun a b => a / Embedder.norm2 (v1.take (min v1.length v2.length)) -
          b / Embedder.norm2 (v2.take (min v1.length v2.length)))
        (v1.take (min v1.length v2.length)) (v2.take (min v1.length v2.length)))
      linarith

/-- The combined similarity lies in `[-2/5, 1]` for all inputs. -/
theorem combined_similarity_bounds (v1 v2 : List ℝ) :
    -(2/5) ≤ Embedder.combined_similarity v1 v2 ∧
    Embedder.combined_similarity v1 v2 ≤ 1 := by
  have ha := adjusted_cosine_ge v1 v2
  have hb := adjusted_cosine_le v1 v2
  have hn := normalized_euclidean_bounds v1 v2
  rw [Embedder.combined_similarity]
  constructor <;> nlinarith [hn.1, hn.2, ha, hb]

/-- Lists whose entries are all zero are zero vectors in the sense of
`_is_zero_vector` (their norm is `0 < 0.001`). -/
theorem is_zero_vector_of_all_zero (v : List ℝ) (h : ∀ x ∈ v, x = 0) :
    Embedder.is_zero_vector v := by
  rcases v with _ | ⟨a, t⟩
  · exact Or.inl rfl
  · right
    have hs : Embedder.sumsq (a :: t) = 0 := by
      refine List.sum_eq_zero ?_
      intro x hx
      rcases List.mem_map.mp hx with ⟨y, hy, rfl⟩
      rw [h y hy]
      ring
    rw [Embedder.norm2, hs, Real.sqrt_zero]
    norm_num

/-- C3: embedding empty (or whitespace-only) text yields the all-zero
vector of the configured dimension, a NULL/empty/"no information" tag
likewise maps to the zero vector, and the per-facet similarity of any pair
in which at least one vector is the zero vector is the `-1.0` "no data"
sentinel — never a numeric similarity and never `0`. -/
theorem c3_zero_vector_sentinel :
    (∀ (encode : String → Option (List ℝ)) (dim : ℕ) (text : String),
      Py.stripStr text = "" →
      Embedder.get_text_embedding encode dim text = List.replicate dim 0) ∧
    (∀ (encode : String → Option (List ℝ)) (dim : ℕ) (tag : Option String),
      (tag = Option.none ∨ ∃ t, tag = some t ∧
        (t = "" ∨ Py.lower t = "нет информации" ∨ Py.lower t = "нет данных")) →
      Embedder.tag_embedding encode dim tag = List.replicate dim 0) ∧
    (∀ v1 v2 : List ℝ, ((∀ x ∈ v1, x = 0) ∨ (∀ x ∈ v2, x = 0)) →
      Embedder.calculate_vector_similarity v1 v2 = -1 ∧
      Embedder.calculate_vector_similarity v1 v2 ≠ 0) := by
  refine ⟨?_, ?_, ?_⟩
  · intro encode dim text h
    rw [Embedder.get_text_embedding, if_pos (Or.inr h)]
  · intro encode dim tag h
    rcases h with rfl | ⟨t, rfl, ht⟩
    · rfl
    · rw [Embedder.tag_embedding]
      refine if_pos ?_
      rcases ht with h1 | h2 | h3
      · exact Or.inl h1
      · exact Or.inr (by rw [h2]; simp)
      · exact Or.inr (by rw [h3]; simp)
  · intro v1 v2 h
    have hz : Embedder.is_zero_vector v1 ∨ Embedder.is_zero_vector v2 := by
      rcases h with h | h
      · exact Or.inl (is_zero_vector_of_all_zero v1 h)
      · exact Or.inr (is_zero_vector_of_all_zero v2 h)
    rw [Embedder.calculate_vector_similarity, if_pos hz]
    norm_num

/-- Witness for C3: the zero vector of dimension 768 against a concrete
non-zero vector scores the `-1.0` sentinel, and a concrete "no
information" tag embeds to the zero vector. -/
theorem c3_zero_vector_sentinel_witness :
    (Embedder.calculate_vector_similarity (List.replicate 768 0) [(1 : ℝ)] = -1 ∧
      Embedder.calculate_vector_similarity (List.replicate 768 0) [(1 : ℝ)] ≠ 0) ∧
    Embedder.tag_embedding (fun _ => Option.none) 768 (some "Нет информации") =
      List.replicate 768 0 :=
  ⟨c3_zero_vector_sentinel.2.2 (List.replicate 768 0) [(1 : ℝ)]
      (Or.inl (fun x hx => List.eq_of_mem_replicate hx)),
   c3_zero_vector_sentinel.2.1 (fun _ => Option.none) 768 (some "Нет информации")
      (Or.inr ⟨"Нет информации", rfl, Or.inr (Or.inl (by decide))⟩)⟩

/-- C2 as stated is false: the aggregate filters with `v >= 0`, not with
`v != -1`, so a dictionary with a valid negative score (the combined
metric can reach `-0.4`) gives an aggregate different from the mean of
the non-sentinel scores: at `(-0.5, 0.8, -1, -1, -1)` the code returns
`0.8` while the claimed mean of valid scores is `0.15`. -/
theorem c2_counterexample :
    Embedder.calculate_coincide_24hr ⟨-(1/2), 4/5, -1, -1, -1⟩ = 4/5 ∧
    Embedder.spec_mean_of_valid ⟨-(1/2), 4/5, -1, -1, -1⟩ = 3/20 ∧
    Embedder.calculate_coincide_24hr ⟨-(1/2), 4/5, -1, -1, -1⟩ ≠
      Embedder.spec_mean_of_valid ⟨-(1/2), 4/5, -1, -1, -1⟩ := by
  have h1 : Embedder.calculate_coincide_24hr ⟨-(1/2), 4/5, -1, -1, -1⟩ = 4/5 := by
    rw [Embedder.calculate_coincide_24hr]
    dsimp only [Embedder.TagScores.values]
    norm_num [List.filter]
  have h2 : Embedder.spec_mean_of_valid ⟨-(1/2), 4/5, -1, -1, -1⟩ = 3/20 := by
    rw [Embedder.spec_mean_of_valid]
    dsimp only [Embedder.TagScores.values]
    norm_num [List.filter]
    simp
  refine ⟨h1, h2, ?_⟩
  rw [h1, h2]
  norm_num

/-- C2 (amended): the aggregate coincidence score is the arithmetic mean
of the **non-negative** per-facet scores (sentinel `-1.0` and any valid
negative score are both excluded) and `0` when no score is non-negative;
it agrees with the claimed mean-of-non-sentinel whenever every
non-sentinel score is non-negative — in particular on the spec's example
`(0.8, -1, 0.4, -1, -1)` the aggregate is `0.6`. -/
theorem c2_amended_coincide_mean :
    (∀ t : Embedder.TagScores, (∀ s ∈ t.values, s = -1 ∨ 0 ≤ s) →
      Embedder.calculate_coincide_24hr t = Embedder.spec_mean_of_valid t) ∧
    (∀ t : Embedder.TagScores, (∀ s ∈ t.values, s < 0) →
      Embedder.calculate_coincide_24hr t = 0) ∧
    Embedder.calculate_coincide_24hr ⟨4/5, -1, 2/5, -1, -1⟩ = 3/5 := by
  refine ⟨?_, ?_, ?_⟩
  · intro t ht
    have hfilter : t.values.filter (fun v => 0 ≤ v) =
        t.values.filter (fun v => v ≠ -1) := by
      refine List.filter_congr ?_
      intro x hx
      rw [decide_eq_decide]
      rcases ht x hx with rfl | hge
      · constructor
        · intro h
          norm_num at h
        · intro h
          exact absurd rfl h
      · constructor
        · intro _
          intro hx1
          rw [hx1] at hge
          norm_num at hge
        · intro _
          exact hge
    rw [Embedder.calculate_coincide_24hr, Embedder.spec_mean_of_valid, hfilter]
  · intro t ht
    rw [Embedder.calculate_coincide_24hr]
    have hf : t.values.filter (fun v => 0 ≤ v) = [] := by
      rw [List.filter_eq_nil_iff]
      intro a ha
      simp only [decide_eq_true_eq, not_le]
      exact ht a ha
    rw [hf]
    simp
  · rw [Embedder.calculate_coincide_24hr]
    dsimp only [Embedder.TagScores.values]
    norm_num [List.filter]
    simp

/-- Witness for C2 (amended) at the spec's example dictionary, whose
non-sentinel scores are all non-negative. -/
theorem c2_amended_coincide_mean_witness :
    Embedder.calculate_coincide_24hr ⟨4/5, -1, 2/5, -1, -1⟩ =
      Embedder.spec_mean_of_valid ⟨4/5, -1, 2/5, -1, -1⟩ :=
  c2_amended_coincide_mean.1 ⟨4/5, -1, 2/5, -1, -1⟩ (by
    intro s hs
    rw [Embedder.TagScores.values] at hs
    simp only [List.mem_cons, List.not_mem_nil, or_false] at hs
    rcases hs with rfl | rfl | rfl | rfl | rfl <;> norm_num)

/-- C4 as stated is false: the combined similarity of the non-zero
equal-dimension vectors `[1]` and `[-1]` is `0.4·(-1) + 0.6·0 = -0.4`,
outside the claimed range `[0, 1]`. -/
theorem c4_counterexample :
    Embedder.combined_similarity [(1 : ℝ)] [(-1 : ℝ)] = -(2/5) ∧
    Embedder.combined_similarity [(1 : ℝ)] [(-1 : ℝ)] < 0 := by
  have hn1 : Embedder.norm2 [(1 : ℝ)] = 1 := by
    rw [Embedder.norm2, show Embedder.sumsq [(1 : ℝ)] = 1 by norm_num [Embedder.sumsq],
      Real.sqrt_one]
  have hn2 : Embedder.norm2 [(-1 : ℝ)] = 1 := by
    rw [Embedder.norm2, show Embedder.sumsq [(-1 : ℝ)] = 1 by norm_num [Embedder.sumsq],
      Real.sqrt_one]
  have hcos : Embedder.cosine_similarity [(1 : ℝ)] [(-1 : ℝ)] = -1 := by
    rw [Embedder.cosine_similarity]
    simp only [List.length_cons, List.length_nil, min_self, List.take_succ_cons,
      List.take_nil, hn1, hn2]
    norm_num [Embedder.dot]
  have hadj : Embedder.adjusted_cosine_similarity [(1 : ℝ)] [(-1 : ℝ)] = -1 := by
    rw [Embedder.adjusted_cosine_similarity, hcos]
    norm_num
  have hne : Embedder.normalized_euclidean_similarity [(1 : ℝ)] [(-1 : ℝ)] = 0 := by
    have h4 : Embedder.norm2 [(2 : ℝ)] = 2 := by
      rw [Embedder.norm2, show Embedder.sumsq [(2 : ℝ)] = 4 by norm_num [Embedder.sumsq]]
      rw [show (4 : ℝ) = 2 ^ 2 by norm_num, Real.sqrt_sq (by norm_num)]
    rw [Embedder.normalized_euclidean_similarity]
    simp only [List.length_cons, List.length_nil, min_self, List.take_succ_cons,
      List.take_nil, hn1, hn2]
    norm_num
    rw [h4]
    norm_num
  rw [Embedder.combined_similarity, hadj, hne]
  norm_num

/-- C4 (amended): for every two non-zero vectors of equal dimension the
combined similarity lies in `[-2/5, 1]` (the lower end is attained, see
the counterexample; the claimed lower bound `0` is wrong), and whenever
the raw cosine exceeds `0.9` the adjusted cosine is the compressed value
`0.85 + (cos - 0.9)/2`, which never exceeds the `0.9` ceiling. -/
theorem c4_amended_similarity_bounds (v1 v2 : List ℝ)
    (_hlen : v1.length = v2.length)
    (_h1 : ∃ x ∈ v1, x ≠ 0) (_h2 : ∃ y ∈ v2, y ≠ 0) :
    (-(2/5) ≤ Embedder.combined_similarity v1 v2 ∧
      Embedder.combined_similarity v1 v2 ≤ 1) ∧
    (Embedder.cosine_similarity v1 v2 > 9/10 →
      Embedder.adjusted_cosine_similarity v1 v2 =
        17/20 + (Embedder.cosine_similarity v1 v2 - 9/10) * (1/2) ∧
      Embedder.adjusted_cosine_similarity v1 v2 ≤ 9/10) := by
  refine ⟨combined_similarity_bounds v1 v2, ?_⟩
  intro hgt
  refine ⟨?_, adjusted_cosine_le v1 v2⟩
  rw [Embedder.adjusted_cosine_similarity, if_pos hgt]

/-- Witness for C4 (amended) at the non-zero pair `[1]`, `[1]`. -/
theorem c4_amended_similarity_bounds_witness :
    (-(2/5) ≤ Embedder.combined_similarity [(1 : ℝ)] [(1 : ℝ)] ∧
      Embedder.combined_similarity [(1 : ℝ)] [(1 : ℝ)] ≤ 1) ∧
    (Embedder.cosine_similarity [(1 : ℝ)] [(1 : ℝ)] > 9/10 →
      Embedder.adjusted_cosine_similarity [(1 : ℝ)] [(1 : ℝ)] =
        17/20 + (Embedder.cosine_similarity [(1 : ℝ)] [(1 : ℝ)] - 9/10) * (1/2) ∧
      Embedder.adjusted_cosine_similarity [(1 : ℝ)] [(1 : ℝ)] ≤ 9/10) :=
  c4_amended_similarity_bounds [(1 : ℝ)] [(1 : ℝ)] rfl
    ⟨1, by simp, one_ne_zero⟩ ⟨1, by simp, one_ne_zero⟩

instance : IsTotal Embedder.TopRow (fun a b => b.id ≤ a.id) :=
  ⟨fun a b => le_total b.id a.id⟩

instance : IsTrans Embedder.TopRow (fun a b => b.id ≤ a.id) :=
  ⟨fun _ _ _ hab hbc => le_trans hbc hab⟩

/-- The string-dispatched metric with the configured `"combined"` setting
is the combined similarity. -/
theorem calculate_similarity_combined (v1 v2 : List ℝ) :
    Embedder.calculate_similarity Embedder.SIMILARITY_METRIC v1 v2 =
      Embedder.combined_similarity v1 v2 := by
  rw [Embedder.calculate_similarity, Embedder.SIMILARITY_METRIC]
  rw [if_neg (by decide), if_neg (by decide), if_pos rfl]

/-- Every per-facet similarity is either the `-1.0` sentinel or a combined
similarity, hence at least `-2/5`. -/
theorem calculate_vector_similarity_cases (v1 v2 : List ℝ) :
    Embedder.calculate_vector_similarity v1 v2 = -1 ∨
    -(2/5) ≤ Embedder.calculate_vector_similarity v1 v2 := by
  rw [Embedder.calculate_vector_similarity]
  by_cases h : Embedder.is_zero_vector v1 ∨ Embedder.is_zero_vector v2
  · rw [if_pos h]
    exact Or.inl rfl
  · rw [if_neg h]
    right
    rw [calculate_similarity_combined]
    exact (combined_similarity_bounds v1 v2).1

/-- Lower bound on a sum from a uniform lower bound on the entries. -/
theorem mul_length_le_sum (l : List ℝ) (c : ℝ) (h : ∀ x ∈ l, c ≤ x) :
    c * l.length ≤ l.sum := by
  induction l with
  | nil => simp
  | cons a t ih =>
    have ha := h a (List.mem_cons_self a t)
    have ht := ih (fun x hx => h x (List.mem_cons_of_mem a hx))
    simp only [List.length_cons, List.sum_cons]
    have hc : c * ((t.length : ℝ) + 1) = c * t.length + c := by ring
    push_cast
    rw [hc]
    linarith

/-- Average similarity of a prior record is at least `-2/5` (it is `0`
with no valid facets, and the mean of combined similarities otherwise). -/
theorem record_average_ge (le : String → Option Embedder.PyLit)
    (embs : Embedder.FacetEmbeddings) (r : Embedder.TopRow) :
    -(2/5) ≤ Embedder.record_average le embs r := by
  rw [Embedder.record_average]
  by_cases hnil : Embedder.valid_similarities (Embedder.record_similarities le embs r) = []
  · rw [if_pos hnil]
    norm_num
  · rw [if_neg hnil]
    set v := Embedder.valid_similarities (Embedder.record_similarities le embs r) with hv
    have hmem : ∀ s ∈ v, -(2/5) ≤ s := by
      intro s hs
      rw [hv, Embedder.valid_similarities] at hs
      have hs2 := List.mem_filter.mp hs
      have hne : s ≠ -1 := by simpa using hs2.2
      have hvals : (Embedder.record_similarities le embs r).values =
          [Embedder.calculate_vector_similarity embs.e1 (Embedder.row_vector le r.vector1),
           Embedder.calculate_vector_similarity embs.e2 (Embedder.row_vector le r.vector2),
           Embedder.calculate_vector_similarity embs.e3 (Embedder.row_vector le r.vector3),
           Embedder.calculate_vector_similarity embs.e4 (Embedder.row_vector le r.vector4),
           Embedder.calculate_vector_similarity embs.e5 (Embedder.row_vector le r.vector5)] :=
        rfl
      have hmem2 := hs2.1
      rw [hvals] at hmem2
      simp only [List.mem_cons, List.not_mem_nil, or_false] at hmem2
      rcases hmem2 with h | h | h | h | h <;>
        · subst h
          rcases calculate_vector_similarity_cases _ _ with h1 | h1
          · exact absurd h1 hne
          · exact h1
    have hlen : 0 < (v.length : ℝ) := by
      have : 0 < v.length := List.length_pos.mpr hnil
      exact_mod_cast this
    rw [le_div_iff₀ hlen]
    exact mul_length_le_sum v _ hmem

/-- Behaviour of the strict-argmax fold of `_calculate_similarities`: the
accumulator is either untouched (every candidate's score is at most the
incoming best) or set from a processed element whose score strictly beats
the incoming best and is maximal over the list. -/
theorem foldl_argmax {α : Type} (f : α → Embedder.TagScores) (g : α → ℝ) :
    ∀ (l : List α) (b : Option Embedder.TagScores) (m : ℝ),
      (l.foldl (fun acc r => if g r > acc.2 then (some (f r), g r) else acc) (b, m) = (b, m) ∧
        ∀ r ∈ l, g r ≤ m) ∨
      (∃ r ∈ l,
        l.foldl (fun acc r => if g r > acc.2 then (some (f r), g r) else acc) (b, m) =
          (some (f r), g r) ∧ m < g r ∧ ∀ q ∈ l, g q ≤ g r) := by
  intro l
  induction l with
  | nil =>
    intro b m
    left
    exact ⟨rfl, fun r hr => absurd hr (List.not_mem_nil r)⟩
  | cons a t ih =>
    intro b m
    rw [List.foldl_cons]
    dsimp only
    by_cases h : g a > m
    · rw [if_pos h]
      rcases ih (some (f a)) (g a) with ⟨heq, hle⟩ | ⟨r, hr, heq, hlt, hle⟩
      · right
        refine ⟨a, List.mem_cons_self a t, heq, h, ?_⟩
        intro q hq
        rcases List.mem_cons.mp hq with rfl | hq2
        · exact le_refl _
        · exact hle q hq2
      · right
        refine ⟨r, List.mem_cons_of_mem a hr, heq, lt_trans h hlt, ?_⟩
        intro q hq
        rcases List.mem_cons.mp hq with rfl | hq2
        · exact le_of_lt hlt
        · exact hle q hq2
    · rw [if_neg h]
      push_neg at h
      rcases ih b m with ⟨heq, hle⟩ | ⟨r, hr, heq, hlt, hle⟩
      · left
        refine ⟨heq, ?_⟩
        intro q hq
        rcases List.mem_cons.mp hq with rfl | hq2
        · exact h
        · exact hle q hq2
      · right
        refine ⟨r, List.mem_cons_of_mem a hr, heq, hlt, ?_⟩
        intro q hq
        rcases List.mem_cons.mp hq with rfl | hq2
        · exact le_trans h (le_of_lt hlt)
        · exact hle q hq2

/-- C1: the novelty scorer compares a newly-tagged item's five facet
vectors only against prior rows with smaller id, `final = TRUE` and all
five vectors present, taking at most the 100 most recent such rows ordered
newest-first (rows outside the window have ids no larger than every
fetched row); with no such row all five tag scores are the `-1.0`
sentinel; otherwise the result is the five per-facet similarities of a
single fetched row whose average of valid per-facet similarities is
maximal over the fetched rows (not a per-facet maximum across different
priors). -/
theorem c1_novelty_selection (le : String → Option Embedder.PyLit)
    (table : List Embedder.TopRow) (cur : ℕ) (embs : Embedder.FacetEmbeddings) :
    (Embedder.fetch_previous_records table cur).length ≤ 100 ∧
    List.Sorted (fun a b : Embedder.TopRow => b.id ≤ a.id)
      (Embedder.fetch_previous_records table cur) ∧
    (∀ r ∈ Embedder.fetch_previous_records table cur,
      r.id < cur ∧ r.final = true ∧ r.vector1.isSome = true ∧ r.vector2.isSome = true ∧
      r.vector3.isSome = true ∧ r.vector4.isSome = true ∧ r.vector5.isSome = true) ∧
    (∀ r ∈ Embedder.fetch_previous_records table cur,
      ∀ q ∈ table.filter (fun r => decide (r.id < cur) && r.final && r.vector1.isSome &&
        r.vector2.isSome && r.vector3.isSome && r.vector4.isSome && r.vector5.isSome),
        q ∉ Embedder.fetch_previous_records table cur → q.id ≤ r.id) ∧
    (Embedder.fetch_previous_records table cur = [] →
      Embedder.calculate_similarities le table cur embs = Embedder.no_data_scores) ∧
    (Embedder.fetch_previous_records table cur ≠ [] →
      ∃ r ∈ Embedder.fetch_previous_records table cur,
        Embedder.calculate_similarities le table cur embs =
          Embedder.record_similarities le embs r ∧
        ∀ q ∈ Embedder.fetch_previous_records table cur,
          Embedder.record_average le embs q ≤ Embedder.record_average le embs r) := by
  refine ⟨?_, ?_, ?_, ?_, ?_, ?_⟩
  · rw [Embedder.fetch_previous_records]
    exact List.length_take_le 100 _
  · rw [Embedder.fetch_previous_records]
    exact (List.sorted_insertionSort _ _).sublist (List.take_sublist _ _)
  · intro r hr
    rw [Embedder.fetch_previous_records] at hr
    have hr2 : r ∈ (table.filter (fun r => decide (r.id < cur) && r.final &&
        r.vector1.isSome && r.vector2.isSome && r.vector3.isSome && r.vector4.isSome &&
        r.vector5.isSome)).insertionSort (fun a b => b.id ≤ a.id) :=
      List.take_subset _ _ hr
    have hr3 := (List.mem_insertionSort _).mp hr2
    have hpred := (List.mem_filter.mp hr3).2
    simp only [Bool.and_eq_true, decide_eq_true_eq] at hpred
    exact ⟨hpred.1.1.1.1.1.1, hpred.1.1.1.1.1.2, hpred.1.1.1.1.2, hpred.1.1.1.2,
      hpred.1.1.2, hpred.1.2, hpred.2⟩
  · intro r hr q hq hnot
    rw [Embedder.fetch_previous_records] at hr hnot
    have hql : q ∈ (table.filter (fun r => decide (r.id < cur) && r.final &&
        r.vector1.isSome && r.vector2.isSome && r.vector3.isSome && r.vector4.isSome &&
        r.vector5.isSome)).insertionSort (fun a b => b.id ≤ a.id) :=
      (List.mem_insertionSort _).mpr hq
    set l := (table.filter (fun r => decide (r.id < cur) && r.final &&
        r.vector1.isSome && r.vector2.isSome && r.vector3.isSome && r.vector4.isSome &&
        r.vector5.isSome)).insertionSort (fun a b => b.id ≤ a.id) with hl
    have hqdrop : q ∈ l.drop 100 := by
      have hsplit : q ∈ l.take 100 ++ l.drop 100 := by
        rw [List.take_append_drop]
        exact hql
      rcases List.mem_append.mp hsplit with h | h
      · exact absurd h hnot
      · exact h
    have hpair : List.Pairwise (fun a b : Embedder.TopRow => b.id ≤ a.id) l :=
      List.sorted_insertionSort _ _
    rw [← List.take_append_drop 100 l] at hpair
    exact (List.pairwise_append.mp hpair).2.2 r hr q hqdrop
  · intro h
    rw [Embedder.calculate_similarities, h]
    rfl
  · intro h
    rcases foldl_argmax (Embedder.record_similarities le embs)
        (fun r => Embedder.record_average le embs r)
        (Embedder.fetch_previous_records table cur) Option.none (-1) with
      ⟨heq, hle⟩ | ⟨r, hr, heq, hlt, hle⟩
    · obtain ⟨r0, hr0⟩ := List.exists_mem_of_ne_nil _ h
      have h1 := hle r0 hr0
      have h2 := record_average_ge le embs r0
      linarith
    · refine ⟨r, hr, ?_, hle⟩
      rw [Embedder.calculate_similarities]
      have hne : (Embedder.fetch_previous_records table cur).isEmpty = false := by
        rcases hcase : Embedder.fetch_previous_records table cur with _ | ⟨x, xs⟩
        · exact absurd hcase h
        · rfl
      rw [hne, heq]
      rfl

/-- Witness for C1: a one-row table whose single prior row (smaller id,
`final = TRUE`, all vectors present) is selected, so the result equals
that row's per-facet similarity dictionary. -/
theorem c1_novelty_selection_witness :
    Embedder.fetch_previous_records
      [⟨0, true, some "[1]", some "[1]", some "[1]", some "[1]", some "[1]"⟩] 1 ≠ [] ∧
    (∃ r ∈ Embedder.fetch_previous_records
        [⟨0, true, some "[1]", some "[1]", some "[1]", some "[1]", some "[1]"⟩] 1,
      Embedder.calculate_similarities (fun _ => Option.none)
          [⟨0, true, some "[1]", some "[1]", some "[1]", some "[1]", some "[1]"⟩] 1
          ⟨[1], [1], [1], [1], [1]⟩ =
        Embedder.record_similarities (fun _ => Option.none) ⟨[1], [1], [1], [1], [1]⟩ r ∧
      ∀ q ∈ Embedder.fetch_previous_records
          [⟨0, true, some "[1]", some "[1]", some "[1]", some "[1]", some "[1]"⟩] 1,
        Embedder.record_average (fun _ => Option.none) ⟨[1], [1], [1], [1], [1]⟩ q ≤
          Embedder.record_average (fun _ => Option.none) ⟨[1], [1], [1], [1], [1]⟩ r) :=
  ⟨by decide,
   (c1_novelty_selection (fun _ => Option.none)
      [⟨0, true, some "[1]", some "[1]", some "[1]", some "[1]", some "[1]"⟩] 1
      ⟨[1], [1], [1], [1], [1]⟩).2.2.2.2.2 (by decide)⟩

/-- C10: the embedding parser is total (it never raises) and returns, for a
`None` input, for any unparsable input (a list with an unconvertible
element, a non-bracket string that `ast.literal_eval` cannot turn into a
fully convertible list, or a value of any other type), and for any
bracket-delimited string input, a vector of exactly the configured
dimension `EMBEDDING_DIMENSION = 768`, truncating or zero-padding parsed
elements as needed. -/
theorem c10_parse_embedding_total :
    Embedder.EMBEDDING_DIMENSION = 768 ∧
    (∀ le, Embedder.parse_embedding_string le 768 Embedder.PyVal.none =
      List.replicate 768 0) ∧
    (∀ le s, Py.startsWithChar (Py.strip s.toList) '[' = true →
      Py.endsWithChar (Py.strip s.toList) ']' = true →
      (Embedder.parse_embedding_string le 768 (Embedder.PyVal.str s)).length = 768) ∧
    (∀ le xs, Embedder.allFloats xs = Option.none →
      Embedder.parse_embedding_string le 768 (Embedder.PyVal.list xs) =
        List.replicate 768 0) ∧
    (∀ le s, ¬(Py.startsWithChar (Py.strip s.toList) '[' = true ∧
        Py.endsWithChar (Py.strip s.toList) ']' = true) →
      (le (String.mk (Py.strip s.toList)) = Option.none ∨
        le (String.mk (Py.strip s.toList)) = some Embedder.PyLit.nonlist ∨
        ∃ xs, le (String.mk (Py.strip s.toList)) = some (Embedder.PyLit.list xs) ∧
          Embedder.allFloats xs = Option.none) →
      Embedder.parse_embedding_string le 768 (Embedder.PyVal.str s) =
        List.replicate 768 0) ∧
    (∀ le, Embedder.parse_embedding_string le 768 Embedder.PyVal.other =
      List.replicate 768 0) := by
  refine ⟨rfl, fun le => rfl, ?_, ?_, ?_, fun le => rfl⟩
  · intro le s hstart hend
    rw [Embedder.parse_embedding_string, if_pos ⟨hstart, hend⟩]
    by_cases hc : Py.strip ((Py.strip s.toList).drop 1).dropLast = []
    · rw [if_pos hc, List.length_replicate]
    · rw [if_neg hc]
      set result := (((Py.split ',' (Py.strip ((Py.strip s.toList).drop 1).dropLast)).map
        Py.strip).filter (fun p => p ≠ [])).map
        (fun p => (Py.float? (String.mk p)).getD 0)
      by_cases h1 : result.length = 768
      · rw [if_pos h1]; exact h1
      · rw [if_neg h1]
        by_cases h2 : result.length > 768
        · rw [if_pos h2, List.length_take]
          omega
        · rw [if_neg h2, List.length_append, List.length_replicate]
          omega
  · intro le xs hxs
    rw [Embedder.parse_embedding_string, hxs]
  · intro le s hbr hun
    rw [Embedder.parse_embedding_string]
    rw [if_neg (by intro h; exact hbr ⟨h.1, h.2⟩)]
    rcases hun with h | h | ⟨xs, h, hxs⟩
    · rw [h]
    · rw [h]
    · rw [h]
      dsimp only
      rw [hxs]

/-- Witness for C10: a concrete malformed bracket string (blank part,
unconvertible part, short vector) parses to a vector of length 768, and a
concrete non-bracket string parses to the zero vector. -/
theorem c10_parse_embedding_total_witness :
    (Embedder.parse_embedding_string (fun _ => Option.none) 768
      (Embedder.PyVal.str " [1.5, , abc, 2e1] ")).length = 768 ∧
    Embedder.parse_embedding_string (fun _ => Option.none) 768
      (Embedder.PyVal.str "not a vector") = List.replicate 768 0 :=
  ⟨c10_parse_embedding_total.2.2.1 (fun _ => Option.none) " [1.5, , abc, 2e1] "
      (by decide) (by decide),
   c10_parse_embedding_total.2.2.2.2.1 (fun _ => Option.none) "not a vector"
      (by decide) (Or.inl rfl)⟩

/-- C5: the finalizer computes `final_score = essence - penalty(coincide) +
bonus(virality)` with penalty flat (`-0.5`) below coincide `0.5`, linear
with slope `25/3` on `[0.5, 0.8)`, capped at `2.0` from `0.8` on, and bonus
`0` below the virality threshold `5` and linear with slope `2/5` above it;
for `essence = 8.0`, `coincide = 0.9` (penalty `2.0`) and `virality = 0`
(bonus `0`), `final_score = 6.0` and `final` is set iff `6.0` reaches the
configured threshold. -/
theorem c5_final_score_formula :
    (∀ c : ℚ, c < 1/2 → Finisher.calculate_penalty c = -(1/2)) ∧
    (∀ c : ℚ, 1/2 ≤ c → c < 4/5 →
      Finisher.calculate_penalty c = -(1/2) + (25/3) * (c - 1/2)) ∧
    (∀ c : ℚ, 4/5 ≤ c → Finisher.calculate_penalty c = 2) ∧
    (∀ m : ℚ, m < 5 → Finisher.calculate_bonus m = 0) ∧
    (∀ m : ℚ, 5 ≤ m → Finisher.calculate_bonus m = (2/5) * (m - 5)) ∧
    (∀ (th : ℚ) (p : Finisher.TopPost), p.essence = some 8 →
      p.coincide_24hr = some (9/10) → p.myth_score = some 0 →
      (Finisher.top_row_step th false p).final_score = some 6 ∧
      ((Finisher.top_row_step th false p).final = true ↔ 6 ≥ th)) := by
  refine ⟨?_, ?_, ?_, ?_, ?_, ?_⟩
  · intro c h
    simp only [Finisher.calculate_penalty, if_pos h]
  · intro c h1 h2
    rw [Finisher.calculate_penalty, if_neg (by linarith), if_pos h2]
    norm_num
  · intro c h
    rw [Finisher.calculate_penalty, if_neg (by linarith), if_neg (by linarith)]
  · intro m h
    simp only [Finisher.calculate_bonus, if_pos h]
  · intro m h
    rw [Finisher.calculate_bonus, if_neg (by linarith)]
    norm_num
  · intro th p he hc hm
    have hpen : Finisher.calculate_penalty (9/10) = 2 := by
      rw [Finisher.calculate_penalty, if_neg (by norm_num), if_neg (by norm_num)]
    have hbon : Finisher.calculate_bonus 0 = 0 := by
      rw [Finisher.calculate_bonus, if_pos (by norm_num)]
    have hfs : Py.round1 ((8 : ℚ) - 2 + 0) = 6 := by
      norm_num [Py.round1]
    constructor
    · simp only [Finisher.top_row_step, if_neg (by simp : ¬ (false = true)), he, hc, hm,
        Option.getD_some, hpen, hbon, hfs]
    · simp only [Finisher.top_row_step, if_neg (by simp : ¬ (false = true)), he, hc, hm,
        Option.getD_some, hpen, hbon, hfs, decide_eq_true_eq, ge_iff_le]

/-- Witness for C5 at `th = 6` and a concrete top-tier row. -/
theorem c5_final_score_formula_witness :
    (Finisher.top_row_step 6 false
        ⟨1, some 8, some (9/10), some 0, true, true, false, false, Option.none⟩).final_score
        = some 6 ∧
    ((Finisher.top_row_step 6 false
        ⟨1, some 8, some (9/10), some 0, true, true, false, false, Option.none⟩).final = true
      ↔ (6 : ℚ) ≥ 6) :=
  c5_final_score_formula.2.2.2.2.2 6
    ⟨1, some 8, some (9/10), some 0, true, true, false, false, Option.none⟩ rfl rfl rfl

/-- Attempts used by the retry loop never exceed the current attempt index
plus the remaining fuel, minus one. -/
theorem deepseek_loop_attempts_le {J : Type} (jl : String → Option J)
    (env : ℕ → Deepseek.Attempt) :
    ∀ (fuel attempt : ℕ) (sleeps : List ℕ), 1 ≤ attempt →
      (Deepseek.loop jl env attempt fuel sleeps).2.2 ≤ attempt + fuel - 1 := by
  intro fuel
  induction fuel with
  | zero =>
    intro attempt sleeps _
    simp [Deepseek.loop]
  | succ n ih =>
    intro attempt sleeps h1
    rw [Deepseek.loop]
    cases henv : env attempt with
    | http s args =>
      dsimp only
      by_cases h200 : s = 200
      · rw [if_pos h200]
        rcases args with _ | a
        · dsimp only; omega
        · dsimp only; split <;> dsimp only <;> omega
      · rw [if_neg h200]
        by_cases htr : s = 429 ∨ s = 500 ∨ s = 503
        · rw [if_pos htr]
          by_cases hlt : attempt < 3
          · rw [if_pos hlt]
            calc (Deepseek.loop jl env (attempt + 1) n _).2.2 ≤ attempt + 1 + n - 1 :=
                  ih (attempt + 1) _ (by omega)
              _ ≤ attempt + (n + 1) - 1 := by omega
          · rw [if_neg hlt]
            calc (Deepseek.loop jl env (attempt + 1) n _).2.2 ≤ attempt + 1 + n - 1 :=
                  ih (attempt + 1) _ (by omega)
              _ ≤ attempt + (n + 1) - 1 := by omega
        · rw [if_neg htr]
          dsimp only; omega
    | conn_error =>
      dsimp only
      by_cases hlt : attempt < 3
      · rw [if_pos hlt]
        calc (Deepseek.loop jl env (attempt + 1) n _).2.2 ≤ attempt + 1 + n - 1 :=
              ih (attempt + 1) _ (by omega)
          _ ≤ attempt + (n + 1) - 1 := by omega
      · rw [if_neg hlt]
        calc (Deepseek.loop jl env (attempt + 1) n _).2.2 ≤ attempt + 1 + n - 1 :=
              ih (attempt + 1) _ (by omega)
          _ ≤ attempt + (n + 1) - 1 := by omega
    | other_exc => dsimp only; omega

/-- C7: the scoring gateway retries transient failures (429/500/503,
connection error, timeout) up to a fixed bound of 3 total attempts,
sleeping `2^(attempt-1)` seconds after each failed attempt before the
retry (so sleeps `[1, 2]` over a fully transient run), returns failure
(`None`) with no recorded result; any other non-200 HTTP status on the
first attempt returns `None` immediately after exactly 1 attempt and no
sleep; and the attempt count never exceeds 3. -/
theorem c7_gateway_retry_policy :
    (∀ (J : Type) (jl : String → Option J) (env : ℕ → Deepseek.Attempt),
      (Deepseek.call_deepseek_api jl env).2.2 ≤ 3) ∧
    (∀ (J : Type) (jl : String → Option J) (env : ℕ → Deepseek.Attempt),
      (∀ k, Deepseek.transient (env k)) →
      Deepseek.call_deepseek_api jl env = (Option.none, [1, 2], 3)) ∧
    (∀ (J : Type) (jl : String → Option J) (env : ℕ → Deepseek.Attempt)
        (s : ℕ) (args : Option String),
      env 1 = Deepseek.Attempt.http s args → s ≠ 200 →
      ¬ Deepseek.transient_status s →
      Deepseek.call_deepseek_api jl env = (Option.none, [], 1)) := by
  refine ⟨?_, ?_, ?_⟩
  · intro J jl env
    exact deepseek_loop_attempts_le jl env 3 1 [] (by omega)
  · intro J jl env htr
    have step : ∀ a : ℕ, Deepseek.transient (env a) → ∀ fuel sleeps,
        Deepseek.loop jl env a (fuel + 1) sleeps =
          (if a < 3 then Deepseek.loop jl env (a + 1) fuel (sleeps ++ [2 ^ (a - 1)])
           else Deepseek.loop jl env (a + 1) fuel sleeps) := by
      intro a ha fuel sleeps
      rw [Deepseek.loop]
      cases henv : env a with
      | http s args =>
        rw [henv] at ha
        have hs : s = 429 ∨ s = 500 ∨ s = 503 := ha
        have h200 : ¬ s = 200 := by rcases hs with h | h | h <;> omega
        dsimp only
        rw [if_neg h200, if_pos hs]
      | conn_error => rfl
      | other_exc =>
        rw [henv] at ha
        exact absurd ha (by simp [Deepseek.transient])
    rw [Deepseek.call_deepseek_api]
    rw [step 1 (htr 1) 2 [], if_pos (by omega)]
    rw [step 2 (htr 2) 1 _, if_pos (by omega)]
    rw [step 3 (htr 3) 0 _, if_neg (by omega)]
    simp [Deepseek.loop]
  · intro J jl env s args henv h200 hfatal
    rw [Deepseek.call_deepseek_api, Deepseek.loop, henv]
    dsimp only
    rw [if_neg h200, if_neg (by exact hfatal)]

/-- Witness for C7: a fully transient environment (all attempts time out)
yields `None` after 3 attempts with back-off sleeps `[1, 2]`, and a fatal
401 on the first attempt yields `None` after exactly one attempt. -/
theorem c7_gateway_retry_policy_witness :
    Deepseek.call_deepseek_api (fun _ : String => (Option.none : Option ℚ))
        (fun _ => Deepseek.Attempt.conn_error) = (Option.none, [1, 2], 3) ∧
    Deepseek.call_deepseek_api (fun _ : String => (Option.none : Option ℚ))
        (fun _ => Deepseek.Attempt.http 401 Option.none) = (Option.none, [], 1) :=
  ⟨c7_gateway_retry_policy.2.1 ℚ _ _ (fun _ => trivial),
   c7_gateway_retry_policy.2.2 ℚ _ _ 401 Option.none rfl (by omega)
     (by simp [Deepseek.transient_status])⟩
